import Mathlib

/-!
Shallow embedding of the kornia_rs image core: the `Image` data model
(crates/kornia-image/src/image.rs), the normalize module
(crates/kornia-imgproc/src/normalize.rs) and the perspective warp engine
(crates/kornia-imgproc/src/warp/perspective.rs).

Modelling conventions:
- `f32` values are modelled as exact rationals `ℚ` (the claims under study are
  about which formula/branch is computed, not about rounding); `usize` as `Nat`.
- `Vec<T>` is modelled as `List T`; in-place mutation of a destination image is
  modelled by returning the final destination image paired with an optional
  error (`Image T C × Option ImageError`): on an error path the first component
  is the unmodified input destination, matching the Rust early `return Err`.
- Fallible constructors return `Except ImageError _`.
- Code of the repository that is not part of the sample (the `Tensor3` type of
  kornia-core, the `ImageError` enum definition, the interpolation module) is
  modelled from the spec where needed; each such definition carries a doc
  comment saying so.
-/

set_option maxHeartbeats 1000000

/-- Image size in pixels, mirroring `ImageSize` in kornia-image/src/image.rs
(public fields `width`, `height`). -/
structure ImageSize where
  width : Nat
  height : Nat
deriving DecidableEq

/-- Error kinds of the image core. Modelled from the spec: the `ImageError` enum
itself (kornia-image/src/error.rs) is not part of the sample; the constructors
below are exactly the variants used by the sampled code, with the payloads they
are given there. The spec's error taxonomy (§7) calls the data-length-vs-shape
kind `ShapeMismatch`; the sampled code constructs it as
`ImageError::InvalidChannelShape(found, expected)`. -/
inductive ImageError where
  | InvalidChannelShape (found expected : Nat)
  | ChannelIndexOutOfBounds (index channels : Nat)
  | PixelIndexOutOfBounds (x y width height : Nat)
  | InvalidImageSize (a b c d : Nat)
  | CannotComputeDeterminant
  | CastError
  | ImageDataNotInitialized
  | ImageDataNotContiguous
deriving DecidableEq

/-- `Image<T, CHANNELS>`: a rank-3 tensor with shape `[height, width, C]` and a
flat row-major (height, width, channel) data buffer. The channel count `C` is a
type-level constant, as in the Rust `const CHANNELS: usize` parameter. -/
structure Image (T : Type) (C : Nat) where
  height : Nat
  width : Nat
  data : List T
deriving DecidableEq

/-- `Image::size()`: the `ImageSize` with `width = shape[1]`, `height = shape[0]`. -/
def Image.size {T : Type} {C : Nat} (img : Image T C) : ImageSize :=
  { width := img.width, height := img.height }

/-- `Image::num_channels()`: returns the compile-time constant `CHANNELS`. -/
def Image.num_channels {T : Type} {C : Nat} (_ : Image T C) : Nat := C

/-- The tensor invariant: the buffer length equals the product of the shape
dimensions (spec §3). -/
def Image.Valid {T : Type} {C : Nat} (img : Image T C) : Prop :=
  img.data.length = img.width * img.height * C

/-- Element at index `[y, x, c]` of the row-major (height, width, channel)
buffer, i.e. `Tensor3::get_unchecked([y, x, c])` with strides
`[width*C, C, 1]` (layout per spec §3/§6). -/
def Image.val3 {T : Type} {C : Nat} [Inhabited T] (img : Image T C) (y x c : Nat) : T :=
  img.data.getD ((y * img.width + x) * C + c) default

/-- `Image::new(size, data)`: fails with the shape-mismatch error
`InvalidChannelShape(data.len(), w*h*C)` when `data.len() != w*h*C`; otherwise
builds the image. The inner `Tensor3::from_shape_vec([h, w, C], data)` call is
modelled from the spec (§4.1 Construct): it succeeds exactly when the data
length equals the product of the shape, which the preceding check guarantees. -/
def Image.new {T : Type} {C : Nat} (size : ImageSize) (data : List T) :
    Except ImageError (Image T C) :=
  if data.length = size.width * size.height * C then
    Except.ok { height := size.height, width := size.width, data := data }
  else
    Except.error (ImageError.InvalidChannelShape data.length (size.width * size.height * C))

/-- `Image::from_size_val(size, val)`: allocates `w*h*C` copies of `val` and
delegates to `Image::new`. -/
def Image.from_size_val {T : Type} {C : Nat} (size : ImageSize) (val : T) :
    Except ImageError (Image T C) :=
  Image.new size (List.replicate (size.width * size.height * C) val)

/-- `Image::cast::<U>()`: maps the per-element conversion over the buffer and
rebuilds through `Image::new(self.size(), data)`. The Rust code unwraps the
result; here the `Except` is kept so that the unreachability of the error case
can be stated and proved. The conversion `T: Into<U>` is a total function
parameter `f`. -/
def Image.cast {T U : Type} {C : Nat} (f : T → U) (img : Image T C) :
    Except ImageError (Image U C) :=
  Image.new img.size (img.data.map f)

/-- `Image::channel(channel)`: fails with `ChannelIndexOutOfBounds` when
`channel >= CHANNELS`; otherwise collects `self[[y, x, channel]]` for `y` in
`0..height` (outer) and `x` in `0..width` (inner) and rebuilds a single-channel
image via `Image::new(self.size(), channel_data)`. -/
def Image.channel {T : Type} {C : Nat} [Inhabited T] (img : Image T C) (channel : Nat) :
    Except ImageError (Image T 1) :=
  if channel ≥ C then
    Except.error (ImageError.ChannelIndexOutOfBounds channel C)
  else
    Image.new img.size
      ((List.range img.height).flatMap fun y =>
        (List.range img.width).map fun x => img.val3 y x channel)

/-- The loop of `Image::split_channels`: for each index in the given list, get
that channel (propagating its error, as the Rust `?` does) and push it. -/
def Image.split_go {T : Type} {C : Nat} [Inhabited T] (img : Image T C) :
    List Nat → Except ImageError (List (Image T 1))
  | [] => Except.ok []
  | i :: is => do
    let ch ← img.channel i
    let rest ← Image.split_go img is
    Except.ok (ch :: rest)

/-- `Image::split_channels()`: one single-channel image per channel index, in
order `0..CHANNELS`. -/
def Image.split_channels {T : Type} {C : Nat} [Inhabited T] (img : Image T C) :
    Except ImageError (List (Image T 1)) :=
  Image.split_go img (List.range C)

/-- Modelled from the spec: `Tensor3::map` (kornia-core, not in the sample) is
the shape-preserving elementwise transformation of §2. -/
def Image.tmap {T : Type} {C : Nat} (f : T → T) (img : Image T C) : Image T C :=
  { img with data := img.data.map f }

/-- `Image::powi(n)`: elementwise integer power through the tensor map. -/
def Image.powi {C : Nat} (img : Image ℚ C) (n : Int) : Image ℚ C :=
  img.tmap fun x => x ^ n

/-- `Image::abs()`: elementwise absolute value through the tensor map. -/
def Image.iabs {C : Nat} (img : Image ℚ C) : Image ℚ C :=
  img.tmap fun x => |x|

/-- Modelled from num_traits (external crate): `T::from(count)` for a float
element type (`f32`/`f64`) and a `usize` count — `ToPrimitive::to_f32/to_f64`
on `usize` always returns `Some`. Floats are modelled as `ℚ`. -/
def float_from_count (n : Nat) : Option ℚ := some (n : ℚ)

/-- `Image::mean()` for a float element type: folds the sum over the buffer,
then divides by `T::from(len).ok_or(ImageError::CastError)?`. -/
def Image.mean {C : Nat} (img : Image ℚ C) : Except ImageError ℚ :=
  let data_acc := img.data.foldl (fun acc x => acc + x) 0
  match float_from_count img.data.length with
  | none => Except.error ImageError.CastError
  | some n => Except.ok (data_acc / n)

/-- The element loop of `cast_and_scale`: Rust zips `dst.iter_mut()` with
`src.iter()` and `try_for_each`s; on the first element whose conversion fails
it stops with `CastError`, leaving that element and the rest of `dst`
unchanged. `conv` models the fallible `U::from` (num_traits `NumCast`). -/
def cast_and_scale_loop {T U : Type} [Mul U] (conv : T → Option U) (scale : U) :
    List U → List T → List U × Option ImageError
  | out, [] => (out, none)
  | [], _ :: _ => ([], none)
  | u :: us, t :: ts =>
    match conv t with
    | none => (u :: us, some ImageError.CastError)
    | some x =>
      ((x * scale) :: (cast_and_scale_loop conv scale us ts).1,
       (cast_and_scale_loop conv scale us ts).2)

/-- `cast_and_scale(src, dst, scale)`: fails with
`InvalidImageSize(src.w, src.h, dst.w, dst.h)` when the sizes differ; otherwise
writes `U::from(src[e]) * scale` elementwise into `dst`, stopping with
`CastError` at the first unrepresentable element. -/
def cast_and_scale {T U : Type} {C : Nat} [Mul U] (conv : T → Option U)
    (src : Image T C) (dst : Image U C) (scale : U) : Image U C × Option ImageError :=
  if src.size = dst.size then
    let r := cast_and_scale_loop conv scale dst.data src.data
    ({ dst with data := r.1 }, r.2)
  else
    (dst, some (ImageError.InvalidImageSize src.width src.height dst.width dst.height))

/-- `find_min_max(image)`: errors with `ImageDataNotInitialized` on an empty
buffer; otherwise scans the whole buffer keeping running min and max, starting
from the first element, updating only on strict `<` / `>`. -/
def find_min_max {T : Type} {C : Nat} [LinearOrder T] (image : Image T C) :
    Except ImageError (T × T) :=
  match image.data with
  | [] => Except.error ImageError.ImageDataNotInitialized
  | first :: _ =>
    Except.ok (image.data.foldl
      (fun p x => (if x < p.1 then x else p.1, if x > p.2 then x else p.2))
      (first, first))

/-- `normalize_min_max(src, dst, min, max)`: fails with `InvalidImageSize` when
the sizes differ; otherwise calls `find_min_max(src)?` and writes
`(v - min_val) * (max - min) / (max_val - min_val) + min` for every source
element `v`, in order, into the destination. -/
def normalize_min_max {C : Nat} (src dst : Image ℚ C) (min max : ℚ) :
    Image ℚ C × Option ImageError :=
  if src.size = dst.size then
    match find_min_max src with
    | Except.error e => (dst, some e)
    | Except.ok (min_val, max_val) =>
      ({ dst with
          data := src.data.map fun v =>
            (v - min_val) * (max - min) / (max_val - min_val) + min },
       none)
  else
    (dst, some (ImageError.InvalidImageSize src.width src.height dst.width dst.height))

/-- Flat row-major 3x3 perspective matrix (`PerspectiveMatrix = [f32; 9]`). -/
abbrev PerspectiveMatrix : Type := Fin 9 → ℚ

/-- `determinant3x3(m)`: the standard cofactor expansion along the first row. -/
def determinant3x3 (m : PerspectiveMatrix) : ℚ :=
  m 0 * (m 4 * m 8 - m 5 * m 7) -
  m 1 * (m 3 * m 8 - m 5 * m 6) +
  m 2 * (m 3 * m 7 - m 4 * m 6)

/-- `adjugate3x3(m)`: the transpose of the cofactor matrix, entry by entry as in
the source. -/
def adjugate3x3 (m : PerspectiveMatrix) : PerspectiveMatrix :=
  ![m 4 * m 8 - m 5 * m 7,
    m 2 * m 7 - m 1 * m 8,
    m 1 * m 5 - m 2 * m 4,
    m 5 * m 6 - m 3 * m 8,
    m 0 * m 8 - m 2 * m 6,
    m 2 * m 3 - m 0 * m 5,
    m 3 * m 7 - m 4 * m 6,
    m 1 * m 6 - m 0 * m 7,
    m 0 * m 4 - m 1 * m 3]

/-- `inverse_perspective_matrix(m)`: fails with `CannotComputeDeterminant` when
the determinant is exactly zero (no epsilon); otherwise scales the adjugate by
`1/det`. -/
def inverse_perspective_matrix (m : PerspectiveMatrix) :
    Except ImageError PerspectiveMatrix :=
  if determinant3x3 m = 0 then
    Except.error ImageError.CannotComputeDeterminant
  else
    Except.ok fun i => adjugate3x3 m i * (1 / determinant3x3 m)

/-- `transform_point(x, y, m)`: projective application of `m`; note the Rust
`let x = ...` shadows the input `x`, so the `y` line reads the updated value.
The shadowing is reproduced verbatim. -/
def transform_point (x y : ℚ) (m : PerspectiveMatrix) : ℚ × ℚ :=
  let w := m 6 * x + m 7 * y + m 8
  let x := (m 0 * x + m 1 * y + m 2) / w
  let y := (m 3 * x + m 4 * y + m 5) / w
  (x, y)

/-- Modelled from the spec: the interpolation module's mode enum (nearest,
bilinear sampling strategies, §2); the module is not part of the sample. -/
inductive InterpolationMode where
  | Nearest
  | Bilinear
deriving DecidableEq

/-- `warp_perspective(src, dst, m, interpolation)`: inverts `m` (returning its
error, with the destination untouched, when the matrix is singular), then for
every destination pixel `(u, v)` — `v` over `0..dst.height` (rows, outer), `u`
over `0..dst.width` (columns, inner), matching the meshgrid of the source —
maps `(u, v)` through `transform_point` with the inverse matrix and samples
every channel of the source there. `interpolate_pixel` is a function parameter:
the interpolation module is not part of the sample. -/
def warp_perspective {C : Nat} (src dst : Image ℚ C) (m : PerspectiveMatrix)
    (interpolate_pixel : Image ℚ C → ℚ → ℚ → Nat → InterpolationMode → ℚ)
    (interpolation : InterpolationMode) : Image ℚ C × Option ImageError :=
  match inverse_perspective_matrix m with
  | Except.error e => (dst, some e)
  | Except.ok inv_m =>
    let new_data :=
      (List.range dst.height).flatMap fun v =>
        (List.range dst.width).flatMap fun u =>
          let uv := transform_point (u : ℚ) (v : ℚ) inv_m
          (List.range C).map fun c => interpolate_pixel src uv.1 uv.2 c interpolation
    ({ dst with data := new_data }, none)

/-- A perspective matrix given by its nine row-major entries (test fixtures are
written this way; entries beyond the list default to 0). -/
def matOfList (l : List ℚ) : PerspectiveMatrix := fun i => l.getD (i : Nat) 0

/-- The horizontal-flip fixture matrix of the source tests (`[1,0,-1,0,1,1,0,0,1]`). -/
def mflip : PerspectiveMatrix := matOfList [1, 0, -1, 0, 1, 1, 0, 0, 1]

/-- The all-zeros singular matrix of the spec's singularity test. -/
def zeroM : PerspectiveMatrix := matOfList [0, 0, 0, 0, 0, 0, 0, 0, 0]

/-- A nearly-singular but exactly invertible matrix (determinant `10⁻⁹`). -/
def mtiny : PerspectiveMatrix := matOfList [1/1000000000, 0, 0, 0, 1, 0, 0, 0, 1]

/-- One-pixel single-channel source fixture. -/
def src1 : Image ℚ 1 := { height := 1, width := 1, data := [5] }

/-- One-pixel single-channel destination fixture. -/
def dst1 : Image ℚ 1 := { height := 1, width := 1, data := [7] }

/-- The u8 source of the `cast_and_scale` example (`[0, 255]`, 2×1, 1 channel). -/
def srcC : Image ℕ 1 := { height := 1, width := 2, data := [0, 255] }

/-- The f32 destination of the `cast_and_scale` example. -/
def dstC : Image ℚ 1 := { height := 1, width := 2, data := [0, 0] }

/-- The 2×2×3 float buffer of the normalize examples. -/
def srcN : Image ℚ 3 := { height := 2, width := 2, data := [0, 1, 0, 1, 2, 3, 0, 1, 0, 1, 2, 3] }

/-- A zero-filled 2×2×3 destination for the normalize examples. -/
def dstN : Image ℚ 3 := { height := 2, width := 2, data := List.replicate 12 0 }

/-- The u8 buffer of the `find_min_max` example, as a 2×2×3 image. -/
def exImg6 : Image ℕ 3 := { height := 2, width := 2, data := [0, 1, 0, 1, 2, 3, 0, 1, 0, 1, 2, 3] }

/-- The single-channel image that `Image::channel(i)` produces on success: the
source size with the channel-`i` elements collected row-major (y outer, x
inner). -/
def channel_image {T : Type} {C : Nat} [Inhabited T] (img : Image T C) (i : Nat) : Image T 1 :=
  { height := img.height, width := img.width,
    data := (List.range img.height).flatMap fun y =>
      (List.range img.width).map fun x => img.val3 y x i }

/-- C1: for every perspective matrix `m` and point `(u, v)` with
`w = m[6]*u + m[7]*v + m[8]` nonzero, `transform_point` returns
`x_src = (m[0]*u + m[1]*v + m[2]) / w` and
`y_src = (m[3]*x_src + m[4]*v + m[5]) / w` — the y-coordinate is computed from
the already-updated `x_src`, not from the original `u`. -/
theorem transform_point_spec (m : PerspectiveMatrix) (u v : ℚ)
    (_h : m 6 * u + m 7 * v + m 8 ≠ 0) :
    transform_point u v m =
      ((m 0 * u + m 1 * v + m 2) / (m 6 * u + m 7 * v + m 8),
       (m 3 * ((m 0 * u + m 1 * v + m 2) / (m 6 * u + m 7 * v + m 8)) + m 4 * v + m 5) /
         (m 6 * u + m 7 * v + m 8)) := rfl

/-- Witness for C1: at the source test fixture `m = [1,0,-1,0,1,1,0,0,1]`,
`(u, v) = (1, 1)`, the denominator is 1 and the result is `(0, 2)` — the value
2 arises from the updated `x_src = 0`, not from the original `u = 1` (which
would give `y = 2` only by accident here; the test pins `(0, 2)`). -/
theorem transform_point_spec_witness :
    mflip 6 * 1 + mflip 7 * 1 + mflip 8 ≠ 0 ∧ transform_point 1 1 mflip = (0, 2) := by
  have h : mflip 6 * 1 + mflip 7 * 1 + mflip 8 ≠ 0 := by
    norm_num [show mflip 6 = 0 from rfl, show mflip 7 = 0 from rfl, show mflip 8 = 1 from rfl]
  refine ⟨h, ?_⟩
  rw [transform_point_spec mflip 1 1 h]
  norm_num [show mflip 0 = 1 from rfl, show mflip 1 = 0 from rfl,
    show mflip 2 = -1 from rfl, show mflip 3 = 0 from rfl, show mflip 4 = 1 from rfl,
    show mflip 5 = 1 from rfl, show mflip 6 = 0 from rfl, show mflip 7 = 0 from rfl,
    show mflip 8 = 1 from rfl]

/-- C2: `warp_perspective` with a matrix whose cofactor-expansion determinant is
exactly zero returns `CannotComputeDeterminant` with the destination buffer
completely untouched (the whole destination image is returned unchanged, no
pixel written), for every source, destination, sampling function and
interpolation mode; and the comparison is exact — any nonzero determinant, no
matter how small, does not trigger the error. -/
theorem warp_perspective_singular_spec {C : Nat} (src dst : Image ℚ C)
    (m : PerspectiveMatrix)
    (interpolate_pixel : Image ℚ C → ℚ → ℚ → Nat → InterpolationMode → ℚ)
    (interpolation : InterpolationMode) :
    (determinant3x3 m = 0 →
      warp_perspective src dst m interpolate_pixel interpolation =
        (dst, some ImageError.CannotComputeDeterminant)) ∧
    (determinant3x3 m ≠ 0 →
      (warp_perspective src dst m interpolate_pixel interpolation).2 = none) := by
  constructor
  · intro h
    simp [warp_perspective, inverse_perspective_matrix, h]
  · intro h
    simp [warp_perspective, inverse_perspective_matrix, h]

/-- Witness for C2: the all-zeros matrix (determinant 0) fails and leaves the
one-pixel destination `[7]` untouched, while the nearly singular matrix with
determinant `10⁻⁹` does not error. -/
theorem warp_perspective_singular_spec_witness :
    warp_perspective src1 dst1 zeroM (fun _ _ _ _ _ => 0) InterpolationMode.Bilinear =
      (dst1, some ImageError.CannotComputeDeterminant) ∧
    (warp_perspective src1 dst1 mtiny (fun _ _ _ _ _ => 0) InterpolationMode.Nearest).2 = none := by
  constructor
  · exact (warp_perspective_singular_spec src1 dst1 zeroM _ _).1 (by
      norm_num [determinant3x3, show zeroM 0 = 0 from rfl, show zeroM 1 = 0 from rfl,
        show zeroM 2 = 0 from rfl])
  · exact (warp_perspective_singular_spec src1 dst1 mtiny _ _).2 (by
      norm_num [determinant3x3, show mtiny 0 = 1/1000000000 from rfl,
        show mtiny 1 = 0 from rfl, show mtiny 2 = 0 from rfl,
        show mtiny 3 = 0 from rfl, show mtiny 4 = 1 from rfl, show mtiny 5 = 0 from rfl,
        show mtiny 6 = 0 from rfl, show mtiny 7 = 0 from rfl, show mtiny 8 = 1 from rfl])

/-- C3: `Image::new(size, data)` succeeds iff `data.len() = w*h*C`; on success
the accessors return exactly the declared width, height and channel count, and
the buffer is taken over unchanged (no truncation or padding); on any
mismatched length it returns the shape-mismatch error (the code's
`InvalidChannelShape(found, expected)` variant — the spec's `ShapeMismatch`
kind) and never panics. -/
theorem image_new_spec {T : Type} {C : Nat} (size : ImageSize) (data : List T) :
    (data.length = size.width * size.height * C ↔
      (Image.new size data : Except ImageError (Image T C)) =
        Except.ok { height := size.height, width := size.width, data := data }) ∧
    (∀ img : Image T C, Image.new size data = Except.ok img →
      img.width = size.width ∧ img.height = size.height ∧
      img.num_channels = C ∧ img.data = data) ∧
    (data.length ≠ size.width * size.height * C →
      (Image.new size data : Except ImageError (Image T C)) =
        Except.error (ImageError.InvalidChannelShape data.length
          (size.width * size.height * C))) := by
  refine ⟨⟨fun h => by simp [Image.new, h], fun h => ?_⟩, fun img h => ?_, fun h => ?_⟩
  · by_contra hlen
    simp [Image.new, hlen] at h
  · unfold Image.new at h
    split at h
    · cases h
      exact ⟨rfl, rfl, rfl, rfl⟩
    · cases h
  · simp [Image.new, h]

/-- Witness for C3: a 2×1 3-channel image from six elements round-trips, and a
five-element buffer for the same size fails with the shape-mismatch error. -/
theorem image_new_spec_witness :
    (Image.new ⟨2, 1⟩ [0, 1, 2, 3, 4, 5] : Except ImageError (Image ℕ 3)) =
      Except.ok { height := 1, width := 2, data := [0, 1, 2, 3, 4, 5] } ∧
    (Image.new ⟨2, 1⟩ [0, 1, 2, 3, 4] : Except ImageError (Image ℕ 3)) =
      Except.error (ImageError.InvalidChannelShape 5 6) :=
  ⟨(image_new_spec ⟨2, 1⟩ [0, 1, 2, 3, 4, 5]).1.mp rfl,
   (image_new_spec ⟨2, 1⟩ [0, 1, 2, 3, 4]).2.2 (by decide)⟩

/-- C9: `Image::cast` is total — the internal `Image::new` re-construction
cannot fail because the elementwise map preserves the buffer length, which for
a shape-consistent image equals `w*h*C`; the result keeps the source's width,
height and channel count and its data is exactly the mapped buffer (the source
itself is read-only in the casting). -/
theorem image_cast_total {T U : Type} {C : Nat} (f : T → U) (img : Image T C)
    (hv : img.Valid) :
    Image.cast f img =
      Except.ok { height := img.height, width := img.width, data := img.data.map f } := by
  unfold Image.cast Image.new
  rw [if_pos]
  · rfl
  · simpa [Image.size] using hv

/-- Witness for C9: casting the 2×2×3 fixture from ℕ to ℤ succeeds with the
mapped buffer and unchanged dimensions. -/
theorem image_cast_total_witness :
    Image.cast (fun n : ℕ => (n : ℤ)) exImg6 =
      Except.ok { height := exImg6.height
                  width := exImg6.width
                  data := exImg6.data.map (fun n : ℕ => (n : ℤ)) } :=
  image_cast_total (fun n : ℕ => (n : ℤ)) exImg6 rfl

/-- C10: for float element types (modelled as exact rationals, with the
num_traits `usize → f32/f64` conversion total), `Image::mean` never returns an
error — it always returns `Ok(sum / count)` — and on a zero-element image it
returns `Ok` of the `0 / 0` division result rather than an error, unlike
`find_min_max`, which fails with `ImageDataNotInitialized` on that same image. -/
theorem image_mean_total {C : Nat} (img : Image ℚ C) :
    Image.mean img =
      Except.ok ((img.data.foldl (fun acc x => acc + x) 0) / (img.data.length : ℚ)) ∧
    (img.data = [] →
      Image.mean img = Except.ok ((0 : ℚ) / 0) ∧
      find_min_max img = Except.error ImageError.ImageDataNotInitialized) := by
  constructor
  · rfl
  · intro h
    constructor
    · simp [Image.mean, float_from_count, h]
    · unfold find_min_max
      rw [h]

/-- Witness for C10: the empty single-channel float image has `mean = Ok(0/0)`
while `find_min_max` errors. -/
theorem image_mean_total_witness :
    Image.mean ({ height := 0, width := 0, data := [] } : Image ℚ 1) =
      Except.ok ((0 : ℚ) / 0) ∧
    find_min_max ({ height := 0, width := 0, data := [] } : Image ℚ 1) =
      Except.error ImageError.ImageDataNotInitialized :=
  (image_mean_total ({ height := 0, width := 0, data := [] } : Image ℚ 1)).2 rfl

theorem minmax_foldl_le {T : Type} [LinearOrder T] (l : List T) (p : T × T) :
    (l.foldl (fun q x => (if x < q.1 then x else q.1, if x > q.2 then x else q.2)) p).1 ≤ p.1 ∧
    p.2 ≤ (l.foldl (fun q x => (if x < q.1 then x else q.1, if x > q.2 then x else q.2)) p).2 := by
  induction l generalizing p with
  | nil => simp
  | cons a l ih =>
    simp only [List.foldl_cons]
    refine ⟨le_trans (ih _).1 ?_, le_trans ?_ (ih _).2⟩
    · dsimp only
      split
      · exact le_of_lt (by assumption)
      · exact le_rfl
    · dsimp only
      split
      · exact le_of_lt (by assumption)
      · exact le_rfl

theorem minmax_foldl_bounds {T : Type} [LinearOrder T] (l : List T) (p : T × T) :
    ∀ x ∈ l,
      (l.foldl (fun q y => (if y < q.1 then y else q.1, if y > q.2 then y else q.2)) p).1 ≤ x ∧
      x ≤ (l.foldl (fun q y => (if y < q.1 then y else q.1, if y > q.2 then y else q.2)) p).2 := by
  induction l generalizing p with
  | nil => simp
  | cons a l ih =>
    intro x hx
    simp only [List.foldl_cons]
    rcases List.mem_cons.mp hx with h | h
    · subst h
      constructor
      · refine le_trans (minmax_foldl_le l _).1 ?_
        dsimp only
        split
        · exact le_rfl
        · exact le_of_not_lt (by assumption)
      · refine le_trans ?_ (minmax_foldl_le l _).2
        dsimp only
        split
        · exact le_rfl
        · exact le_of_not_lt (by assumption)
    · exact ih _ x h

theorem minmax_foldl_mem {T : Type} [LinearOrder T] (l : List T) (p : T × T) :
    ((l.foldl (fun q x => (if x < q.1 then x else q.1, if x > q.2 then x else q.2)) p).1 = p.1 ∨
      (l.foldl (fun q x => (if x < q.1 then x else q.1, if x > q.2 then x else q.2)) p).1 ∈ l) ∧
    ((l.foldl (fun q x => (if x < q.1 then x else q.1, if x > q.2 then x else q.2)) p).2 = p.2 ∨
      (l.foldl (fun q x => (if x < q.1 then x else q.1, if x > q.2 then x else q.2)) p).2 ∈ l) := by
  induction l generalizing p with
  | nil => simp
  | cons a l ih =>
    simp only [List.foldl_cons, List.mem_cons]
    constructor
    · rcases (ih _).1 with h | h
      · rw [h]
        dsimp only
        split
        · exact Or.inr (Or.inl rfl)
        · exact Or.inl rfl
      · exact Or.inr (Or.inr h)
    · rcases (ih _).2 with h | h
      · rw [h]
        dsimp only
        split
        · exact Or.inr (Or.inl rfl)
        · exact Or.inl rfl
      · exact Or.inr (Or.inr h)

/-- C6: `find_min_max` fails with `ImageDataNotInitialized` exactly when the
image holds zero elements; otherwise it returns a pair `(min, max)` with `min`
at most every element, `max` at least every element, and both values occurring
in the buffer (the scan updates only on strict `<` / `>`, so ties keep the
first occurrence); concretely, the buffer `[0,1,0,1,2,3,0,1,0,1,2,3]` yields
`(0, 3)`. -/
theorem find_min_max_spec {T : Type} [LinearOrder T] {C : Nat} (img : Image T C) :
    (find_min_max img = Except.error ImageError.ImageDataNotInitialized ↔ img.data = []) ∧
    (∀ mn mx, find_min_max img = Except.ok (mn, mx) →
      mn ∈ img.data ∧ mx ∈ img.data ∧ ∀ x ∈ img.data, mn ≤ x ∧ x ≤ mx) ∧
    find_min_max exImg6 = Except.ok (0, 3) := by
  refine ⟨?_, ?_, by rfl⟩
  · unfold find_min_max
    cases hd : img.data with
    | nil => simp
    | cons a l => simp
  · intro mn mx hok
    unfold find_min_max at hok
    cases hd : img.data with
    | nil => rw [hd] at hok; cases hok
    | cons a l =>
      rw [hd] at hok
      rw [Except.ok.injEq] at hok
      have h1 := minmax_foldl_mem (a :: l) (a, a)
      have h2 := minmax_foldl_bounds (a :: l) (a, a)
      rw [hok] at h1 h2
      refine ⟨?_, ?_, fun x hx => h2 x hx⟩
      · rcases h1.1 with h | h
        · exact (show mn = a from h) ▸ List.mem_cons_self a l
        · exact h
      · rcases h1.2 with h | h
        · exact (show mx = a from h) ▸ List.mem_cons_self a l
        · exact h

theorem find_min_max_spec_witness :
    find_min_max exImg6 = Except.ok (0, 3) ∧ (0 : ℕ) ∈ exImg6.data ∧ (3 : ℕ) ∈ exImg6.data := by
  have h : find_min_max exImg6 = Except.ok (0, 3) := (find_min_max_spec exImg6).2.2
  have hm := (find_min_max_spec exImg6).2.1 0 3 h
  exact ⟨h, hm.1, hm.2.1⟩

/-- C5: `normalize_min_max` fails with `InvalidImageSize` when the sizes
differ; with equal sizes it first computes `(min, max)` of the source via
`find_min_max` — propagating `ImageDataNotInitialized` when the source is
empty — and then sets every destination element to
`(value - min) * (newMax - newMin) / (max - min) + newMin` for the
corresponding source `value`. -/
theorem normalize_min_max_spec {C : Nat} (src dst : Image ℚ C) (nmin nmax : ℚ) :
    (src.size ≠ dst.size →
      normalize_min_max src dst nmin nmax =
        (dst, some (ImageError.InvalidImageSize src.width src.height dst.width dst.height))) ∧
    (src.size = dst.size → src.data = [] →
      normalize_min_max src dst nmin nmax = (dst, some ImageError.ImageDataNotInitialized)) ∧
    (src.size = dst.size → ∀ mn mx, find_min_max src = Except.ok (mn, mx) →
      normalize_min_max src dst nmin nmax =
        ({ dst with
            data := src.data.map fun v => (v - mn) * (nmax - nmin) / (mx - mn) + nmin },
         none)) := by
  refine ⟨fun hne => ?_, fun heq hemp => ?_, fun heq mn mx hok => ?_⟩
  · simp [normalize_min_max, hne]
  · have herr : find_min_max src = Except.error ImageError.ImageDataNotInitialized := by
      unfold find_min_max
      rw [hemp]
    simp [normalize_min_max, heq, herr]
  · simp [normalize_min_max, heq, hok]

theorem normalize_min_max_spec_witness :
    find_min_max srcN = Except.ok (0, 3) ∧
    normalize_min_max srcN dstN 0 1 =
      ({ dstN with data := srcN.data.map fun v => (v - 0) * (1 - 0) / (3 - 0) + 0 }, none) := by
  have hok : find_min_max srcN = Except.ok (0, 3) := by
    norm_num [find_min_max, srcN]
  exact ⟨hok, (normalize_min_max_spec srcN dstN 0 1).2.2 rfl 0 3 hok⟩

theorem cast_and_scale_loop_ok {T U : Type} [Mul U] (conv : T → Option U) (scale : U)
    {ts : List T} {us : List U} (hf : List.Forall₂ (fun t u => conv t = some u) ts us) :
    ∀ out : List U, out.length = ts.length →
      cast_and_scale_loop conv scale out ts = (us.map (fun u => u * scale), none) := by
  induction hf with
  | nil =>
    intro out hlen
    rw [List.length_nil, List.length_eq_zero] at hlen
    subst hlen
    rfl
  | cons ht htl ih =>
    intro out hlen
    cases out with
    | nil => simp at hlen
    | cons o os =>
      simp only [List.length_cons, Nat.succ.injEq] at hlen
      simp [cast_and_scale_loop, ht, ih os hlen]

theorem cast_and_scale_loop_err {T U : Type} [Mul U] (conv : T → Option U) (scale : U) :
    ∀ (ts : List T) (out : List U), (∃ t ∈ ts, conv t = none) → out.length = ts.length →
      (cast_and_scale_loop conv scale out ts).2 = some ImageError.CastError := by
  intro ts
  induction ts with
  | nil =>
    intro out hex
    simp at hex
  | cons t ts ih =>
    intro out hex hlen
    cases out with
    | nil => simp at hlen
    | cons o os =>
      simp only [List.length_cons, Nat.succ.injEq] at hlen
      cases hc : conv t with
      | none => simp [cast_and_scale_loop, hc]
      | some x =>
        have hex' : ∃ t ∈ ts, conv t = none := by
          rcases hex with ⟨t', ht', hn⟩
          rcases List.mem_cons.mp ht' with h | h
          · subst h
            rw [hc] at hn
            cases hn
          · exact ⟨t', h, hn⟩
        simp [cast_and_scale_loop, hc, ih os hex' hlen]

/-- C4: `cast_and_scale` fails with `InvalidImageSize` exactly when source and
destination differ in (width, height); otherwise, when every element converts,
it writes `NumCast(src[e]) * scale` into every destination position (`us` is
the list of converted values, pointwise `conv src[e] = some us[e]`), and it
returns `CastError` as soon as any element's conversion to the destination
type is not representable. -/
theorem cast_and_scale_spec {T U : Type} {C : Nat} [Mul U] (conv : T → Option U)
    (src : Image T C) (dst : Image U C) (scale : U) (hs : src.Valid) (hd : dst.Valid) :
    (src.size ≠ dst.size →
      cast_and_scale conv src dst scale =
        (dst, some (ImageError.InvalidImageSize src.width src.height dst.width dst.height))) ∧
    (src.size = dst.size →
      (∀ us, List.Forall₂ (fun t u => conv t = some u) src.data us →
        cast_and_scale conv src dst scale =
          ({ dst with data := us.map fun u => u * scale }, none)) ∧
      ((∃ t ∈ src.data, conv t = none) →
        (cast_and_scale conv src dst scale).2 = some ImageError.CastError)) := by
  refine ⟨fun hne => ?_, fun heq => ?_⟩
  · simp [cast_and_scale, hne]
  · have hwh : src.width = dst.width ∧ src.height = dst.height := by
      unfold Image.size at heq
      rw [ImageSize.mk.injEq] at heq
      exact heq
    have hlen : dst.data.length = src.data.length := by
      rw [hs, hd, hwh.1, hwh.2]
    refine ⟨fun us hf => ?_, fun hex => ?_⟩
    · simp [cast_and_scale, heq, cast_and_scale_loop_ok conv scale hf dst.data hlen]
    · simp [cast_and_scale, heq, cast_and_scale_loop_err conv scale src.data dst.data hex hlen]

theorem cast_and_scale_spec_witness :
    cast_and_scale (fun n : ℕ => some ((n : ℚ))) srcC dstC (1/255) =
      ({ dstC with data := [(0 : ℚ), 255].map fun u => u * (1/255) }, none) :=
  ((cast_and_scale_spec (fun n : ℕ => some ((n : ℚ))) srcC dstC (1/255) rfl rfl).2 rfl).1
    [(0 : ℚ), 255]
    (List.Forall₂.cons rfl (List.Forall₂.cons rfl List.Forall₂.nil))

theorem flatMap_range_map_length {α : Type} (w : Nat) (g : Nat → Nat → α) (h : Nat) :
    ((List.range h).flatMap fun y => (List.range w).map (g y)).length = h * w := by
  induction h with
  | zero => simp
  | succ n ih =>
    rw [List.range_succ, List.flatMap_append]
    simp [ih, Nat.succ_mul]

theorem flatMap_range_map_getD {α : Type} [Inhabited α] (w : Nat) (g : Nat → Nat → α) :
    ∀ (h y x : Nat), y < h → x < w →
      ((List.range h).flatMap fun yy => (List.range w).map (g yy)).getD (y * w + x) default
        = g y x := by
  intro h
  induction h with
  | zero =>
    intro y x hy
    exact absurd hy (Nat.not_lt_zero y)
  | succ n ih =>
    intro y x hy hx
    rw [List.range_succ, List.flatMap_append]
    by_cases hyn : y < n
    · rw [List.getD_append]
      · exact ih y x hyn hx
      · rw [flatMap_range_map_length]
        calc y * w + x < y * w + w := Nat.add_lt_add_left hx _
        _ = (y + 1) * w := (Nat.succ_mul y w).symm
        _ ≤ n * w := Nat.mul_le_mul_right w hyn
    · have hy' : y = n := by omega
      subst hy'
      rw [List.getD_append_right]
      · rw [flatMap_range_map_length, Nat.add_sub_cancel_left]
        simp only [List.flatMap_cons, List.flatMap_nil, List.append_nil]
        rw [List.getD_eq_getElem?_getD, List.getElem?_map, List.getElem?_range hx]
        rfl
      · rw [flatMap_range_map_length]
        exact Nat.le_add_right _ _

theorem channel_ok {T : Type} [Inhabited T] {C : Nat} (img : Image T C)
    (i : Nat) (hi : i < C) :
    img.channel i = Except.ok (channel_image img i) := by
  unfold Image.channel
  rw [if_neg (by omega)]
  unfold Image.new
  rw [if_pos]
  · rfl
  · simp only [Image.size, flatMap_range_map_length, Nat.mul_one]
    exact (Nat.mul_comm img.height img.width)

theorem split_go_ok {T : Type} [Inhabited T] {C : Nat} (img : Image T C) :
    ∀ is : List Nat, (∀ i ∈ is, i < C) →
      Image.split_go img is = Except.ok (is.map (channel_image img)) := by
  intro is
  induction is with
  | nil => intro _; rfl
  | cons i is ih =>
    intro hall
    have h1 : img.channel i = Except.ok (channel_image img i) :=
      channel_ok img i (hall i (List.mem_cons_self i is))
    have h2 := ih fun j hj => hall j (List.mem_cons_of_mem i hj)
    simp only [Image.split_go, h1, h2]
    rfl

/-- C7: `channel(i)` with `i >= CHANNELS` fails with
`ChannelIndexOutOfBounds`; with `i < CHANNELS` it returns an independently
owned single-channel image of the source's size whose element at pixel
`(y, x)` equals the source element at `[y, x, i]`, collected in row-major
(y outer, x inner) order; and `split_channels()` succeeds with exactly
`CHANNELS` single-channel images in channel-index order whose `i`-th entry is
the result of `channel(i)`. -/
theorem channel_split_channels_spec {T : Type} [Inhabited T] {C : Nat}
    (img : Image T C) :
    (∀ i, C ≤ i → img.channel i = Except.error (ImageError.ChannelIndexOutOfBounds i C)) ∧
    (∀ i, i < C →
      img.channel i = Except.ok (channel_image img i) ∧
      (channel_image img i).width = img.width ∧
      (channel_image img i).height = img.height ∧
      ∀ y x, y < img.height → x < img.width →
        (channel_image img i).val3 y x 0 = img.val3 y x i) ∧
    (img.split_channels = Except.ok ((List.range C).map (channel_image img)) ∧
      ((List.range C).map (channel_image img)).length = C ∧
      ∀ i, i < C → ((List.range C).map (channel_image img))[i]? = some (channel_image img i)) := by
  refine ⟨fun i hi => ?_, fun i hi => ?_, ?_, ?_, fun i hi => ?_⟩
  · unfold Image.channel
    rw [if_pos hi]
  · refine ⟨channel_ok img i hi, rfl, rfl, fun y x hy hx => ?_⟩
    unfold Image.val3 channel_image
    simp only [Nat.mul_one, Nat.add_zero]
    exact flatMap_range_map_getD img.width (fun yy xx => img.val3 yy xx i) img.height y x hy hx
  · exact split_go_ok img (List.range C) fun i hi => List.mem_range.mp hi
  · simp
  · rw [List.getElem?_map, List.getElem?_range hi]
    rfl

theorem channel_split_channels_spec_witness :
    exImg6.channel 5 = Except.error (ImageError.ChannelIndexOutOfBounds 5 3) ∧
    exImg6.channel 2 = Except.ok (channel_image exImg6 2) ∧
    (channel_image exImg6 2).val3 1 0 0 = exImg6.val3 1 0 2 ∧
    exImg6.split_channels = Except.ok ((List.range 3).map (channel_image exImg6)) := by
  have h := channel_split_channels_spec exImg6
  exact ⟨h.1 5 (by omega), (h.2.1 2 (by omega)).1,
    (h.2.1 2 (by omega)).2.2.2 1 0 (by decide) (by decide), h.2.2.1⟩

theorem new_ok_valid {T : Type} {C : Nat} (size : ImageSize) (data : List T)
    (img : Image T C) (h : Image.new size data = Except.ok img) : img.Valid := by
  unfold Image.new at h
  split at h
  · cases h
    unfold Image.Valid
    assumption
  · cases h

theorem channel_ok_valid {T : Type} [Inhabited T] {C : Nat} (img : Image T C) (i : Nat)
    (out : Image T 1) (h : img.channel i = Except.ok out) : out.Valid := by
  unfold Image.channel at h
  split at h
  · cases h
  · exact new_ok_valid _ _ _ h

theorem split_go_members_valid {T : Type} [Inhabited T] {C : Nat} (img : Image T C) :
    ∀ (is : List Nat) (chs : List (Image T 1)),
      Image.split_go img is = Except.ok chs → ∀ ch ∈ chs, ch.Valid := by
  intro is
  induction is with
  | nil =>
    intro chs h
    cases h
    intro ch hch
    cases hch
  | cons i is ih =>
    intro chs h ch hch
    unfold Image.split_go at h
    cases hi : img.channel i with
    | error e => rw [hi] at h; cases h
    | ok c =>
      rw [hi] at h
      cases hrest : Image.split_go img is with
      | error e => rw [hrest] at h; cases h
      | ok cs =>
        rw [hrest] at h
        cases h
        rcases List.mem_cons.mp hch with hc | hc
        · subst hc
          exact channel_ok_valid img i ch hi
        · exact ih cs hrest ch hc

/-- C8 (amended): every successfully constructed image satisfies the
buffer-length-equals-shape-product invariant (the shape dimensions are
nonnegative and may be zero — the code accepts empty images); any construction
with a mismatched buffer length fails with the shape-mismatch error instead of
truncating or padding; the fill-value constructor always succeeds with a valid
image; and the image-producing operations (cast, channel, split_channels, powi,
abs) all preserve the invariant. -/
theorem image_shape_invariant_spec {T U : Type} [Inhabited T] {C : Nat} :
    (∀ (size : ImageSize) (data : List T) (img : Image T C),
      Image.new size data = Except.ok img → img.Valid) ∧
    (∀ (size : ImageSize) (data : List T),
      data.length ≠ size.width * size.height * C →
      (Image.new size data : Except ImageError (Image T C)) =
        Except.error (ImageError.InvalidChannelShape data.length
          (size.width * size.height * C))) ∧
    (∀ (size : ImageSize) (val : T), ∃ img : Image T C,
      Image.from_size_val size val = Except.ok img ∧ img.Valid) ∧
    (∀ (f : T → U) (img : Image T C) (out : Image U C),
      Image.cast f img = Except.ok out → out.Valid) ∧
    (∀ (img : Image T C) (i : Nat) (out : Image T 1),
      img.channel i = Except.ok out → out.Valid) ∧
    (∀ (img : Image T C) (chs : List (Image T 1)),
      img.split_channels = Except.ok chs → ∀ ch ∈ chs, ch.Valid) ∧
    (∀ (img : Image ℚ C) (n : Int), img.Valid → (img.powi n).Valid ∧ img.iabs.Valid) := by
  refine ⟨new_ok_valid, fun size data h => ?_, fun size val => ?_, ?_, ?_, ?_, ?_⟩
  · simp [Image.new, h]
  · unfold Image.from_size_val Image.new
    rw [if_pos (List.length_replicate _ _)]
    exact ⟨_, rfl, List.length_replicate _ _⟩
  · intro f img out h
    exact new_ok_valid _ _ _ h
  · intro img i out h
    exact channel_ok_valid img i out h
  · intro img chs h
    exact split_go_members_valid img (List.range C) chs h
  · intro img n hv
    unfold Image.Valid at hv ⊢
    unfold Image.powi Image.iabs Image.tmap
    simp [hv]

/-- Counterexample for C8 as stated: `Image::new` accepts a zero-sized image —
the empty buffer with declared size 0×0 and 3 channels succeeds, producing an
image whose height and width are 0, not "three positive integers". -/
theorem image_positive_shape_counterexample :
    (Image.new ⟨0, 0⟩ ([] : List ℚ) : Except ImageError (Image ℚ 3)) =
      Except.ok { height := 0, width := 0, data := [] } ∧
    ({ height := 0, width := 0, data := [] } : Image ℚ 3).height = 0 :=
  ⟨rfl, rfl⟩

/-- Witness for C8 (amended): at concrete inputs — a 2×1×3 construction is
valid; a five-element buffer for that size fails; extracting channel 0 of the
2×2×3 fixture yields a valid image; squaring the float fixture preserves
validity. -/
theorem image_shape_invariant_spec_witness :
    (({ height := 1, width := 2, data := [0, 1, 2, 3, 4, 5] } : Image ℕ 3)).Valid ∧
    (Image.new ⟨2, 1⟩ [0, 1, 2, 3, 4] : Except ImageError (Image ℕ 3)) =
      Except.error (ImageError.InvalidChannelShape 5 6) ∧
    (channel_image exImg6 0).Valid ∧
    (srcN.powi 2).Valid := by
  have h := image_shape_invariant_spec (T := ℕ) (U := ℕ) (C := 3)
  have hq := image_shape_invariant_spec (T := ℚ) (U := ℚ) (C := 3)
  refine ⟨h.1 ⟨2, 1⟩ [0, 1, 2, 3, 4, 5] _ rfl, h.2.1 ⟨2, 1⟩ [0, 1, 2, 3, 4] (by decide), ?_, ?_⟩
  · exact h.2.2.2.2.1 exImg6 0 _ (channel_ok exImg6 0 (by omega))
  · exact (hq.2.2.2.2.2.2 srcN 2 rfl).1
